import Mathlib

/-!
Verification of the IntelliSheet filter / command-interpretation core.

This file gives a shallow embedding of the Python sources
`models/filtering.py`, `models/text_commands.py`, `models/voice_commands.py`,
`models/insights.py` and `models/error_detection.py`, and proves properties
of the embedded definitions.

Modelling conventions:
* a pandas `DataFrame` is a list of named, dtype-flagged columns together
  with a list of rows (each row a list of cell values);
* cell values are rationals (numeric dtype) or strings (object dtype);
* Python exceptions become `Except` results;
* element-wise comparisons are total Boolean functions; an ordering
  comparison between a number and a string is modelled as `false`
  (in pandas such a comparison is outside the supported-input contract);
* Python's `str.lower`, `str.strip`, `str.split`, substring tests and the
  few regular expressions used by the sources are implemented directly on
  character lists so that their behaviour is fully transparent.
-/

namespace IntelliSheet

/-- A cell value: numeric (modelled as `ℚ`) or text. -/
inductive Value where
  | num (q : ℚ)
  | str (s : String)
deriving DecidableEq, Repr

/-- A pandas DataFrame: columns are (name, is-numeric-dtype) pairs, rows are
lists of cells (cell `i` of a row belongs to column `i`). -/
structure DataFrame where
  cols : List (String × Bool)
  rows : List (List Value)
deriving DecidableEq, Repr

/-- The column names of a dataframe, in declaration order (`df.columns`). -/
def DataFrame.colNames (df : DataFrame) : List String :=
  df.cols.map Prod.fst

/-- Names of the numeric-dtype columns (`df.select_dtypes(include=['number']).columns`). -/
def DataFrame.numColNames (df : DataFrame) : List String :=
  (df.cols.filter (fun c => c.2)).map Prod.fst

/-- Index of the first column with the given name, if any. -/
def colIndexOf (cols : List (String × Bool)) (c : String) : Option ℕ :=
  cols.findIdx? (fun p => p.1 == c)

/-- The cell of row `r` in column number `i`. -/
def cellAt (r : List Value) (i : ℕ) : Value :=
  r.getD i (Value.num 0)

/-! ### Character-list implementations of the Python string operations -/

/-- Python `str.lower()` (ASCII case folding, which is all the sources use). -/
def pyLower (s : String) : String :=
  String.mk (s.data.map Char.toLower)

/-- Strip leading and trailing whitespace from a character list. -/
def trimChars (l : List Char) : List Char :=
  ((l.dropWhile Char.isWhitespace).reverse.dropWhile Char.isWhitespace).reverse

/-- Python `str.strip()`. -/
def pyStrip (s : String) : String :=
  String.mk (trimChars s.data)

/-- `command_text.lower().strip()` (text_commands.py line 26). -/
def normalizeCmd (s : String) : String :=
  pyStrip (pyLower s)

/-- `listLeads pat l` is true when `pat` occurs at the very start of `l`. -/
def listLeads : List Char → List Char → Bool
  | [], _ => true
  | _ :: _, [] => false
  | p :: ps, x :: xs => p == x && listLeads ps xs

/-- `subOf pat l`: `pat` occurs contiguously somewhere in `l` (Python `pat in l`). -/
def subOf (pat : List Char) : List Char → Bool
  | [] => listLeads pat []
  | x :: xs => listLeads pat (x :: xs) || subOf pat xs

/-- Python substring test `pat in s`. -/
def strContainsSub (s pat : String) : Bool :=
  subOf pat.data s.data

/-- Split a character list at every occurrence of the character `c`,
keeping empty segments (Python `str.split('>')` for a one-character separator). -/
def splitOnChar (c : Char) : List Char → List (List Char)
  | [] => [[]]
  | x :: xs =>
    if x = c then [] :: splitOnChar c xs
    else
      match splitOnChar c xs with
      | [] => [[x]]
      | y :: ys => (x :: y) :: ys

/-- Python `str.split('>')`, as strings. -/
def pySplitGt (s : String) : List String :=
  (splitOnChar '>' s.data).map String.mk

/-- Helper for whitespace splitting: `cur` holds the (reversed) current word. -/
def wsSplitAux (cur : List Char) : List Char → List (List Char)
  | [] => if cur.isEmpty then [] else [cur.reverse]
  | c :: rest =>
    if c.isWhitespace then
      if cur.isEmpty then wsSplitAux [] rest
      else cur.reverse :: wsSplitAux [] rest
    else wsSplitAux (c :: cur) rest

/-- Python no-argument `str.split()`: split on whitespace runs, dropping empties. -/
def pySplitWs (s : String) : List String :=
  (wsSplitAux [] s.data).map String.mk

/-- Numeric value of a list of decimal digit characters. -/
def digitsToNat (l : List Char) : ℕ :=
  l.foldl (fun n c => 10 * n + (c.toNat - 48)) 0

/-- Unsigned part of Python `float()`: digits, optionally followed by a point
and further digits, or a point followed by digits.  (Exponent and inf/nan
forms of `float()` are not modelled; no analysed command depends on them.) -/
def parseUnsignedFloat (l : List Char) : Option ℚ :=
  let ds := l.takeWhile Char.isDigit
  let rest := l.drop ds.length
  match rest with
  | [] => if ds.isEmpty then none else some (digitsToNat ds : ℚ)
  | '.' :: frac =>
    let fs := frac.takeWhile Char.isDigit
    if fs.length = frac.length then
      if ds.isEmpty && fs.isEmpty then none
      else some ((digitsToNat ds : ℚ) + (digitsToNat fs : ℚ) / (10 ^ fs.length : ℚ))
    else none
  | _ => none

/-- Python `float(s)` on a token: optional sign then an unsigned float.
Returns `none` where Python raises `ValueError`. -/
def parsePyFloat (s : String) : Option ℚ :=
  match trimChars s.data with
  | '+' :: rest => parseUnsignedFloat rest
  | '-' :: rest => (parseUnsignedFloat rest).map Neg.neg
  | rest => parseUnsignedFloat rest

/-! ### The regular expressions used by text_commands.py -/

/-- Leftmost-match scanner: try `f` at every suffix, left to right. -/
def scanFind {β : Type} (f : List Char → Option β) : List Char → Option β
  | [] => f []
  | c :: rest =>
    match f (c :: rest) with
    | some b => some b
    | none => scanFind f rest

/-- Match `kw` followed by one or more digits at the head of `l`;
returns the (maximal) digit run's value. -/
def matchKwNum (kw : List Char) (l : List Char) : Option ℕ :=
  if listLeads kw l then
    let ds := (l.drop kw.length).takeWhile Char.isDigit
    if ds.isEmpty then none else some (digitsToNat ds)
  else none

/-- `re.search(r'above (\d+)', s)`: first "above " followed by digits. -/
def reSearchAboveNum (s : String) : Option ℕ :=
  scanFind (matchKwNum "above ".data) s.data

/-- `re.search(r'below? (\d+)', s)`: the final `w` is optional, so either
"below <digits>" or "belo <digits>" matches (greedy `?` tries `w` first). -/
def reSearchBelowNum (s : String) : Option ℕ :=
  scanFind
    (fun l =>
      match matchKwNum "below ".data l with
      | some n => some n
      | none => matchKwNum "belo ".data l)
    s.data

/-- A regex word character (`\w`): alphanumeric or underscore. -/
def wordChar (c : Char) : Bool :=
  c.isAlphanum || c == '_'

/-- Match `(\w+)\s+greater than\s+(\d+)` at the head of `l`. -/
def matchGreaterAt (l : List Char) : Option (List Char × ℕ) :=
  let w := l.takeWhile wordChar
  if w.isEmpty then none
  else
    let r1 := l.drop w.length
    let s1 := r1.takeWhile Char.isWhitespace
    if s1.isEmpty then none
    else
      let r2 := r1.drop s1.length
      if listLeads "greater than".data r2 then
        let r3 := r2.drop 12
        let s2 := r3.takeWhile Char.isWhitespace
        if s2.isEmpty then none
        else
          let ds := (r3.drop s2.length).takeWhile Char.isDigit
          if ds.isEmpty then none else some (w, digitsToNat ds)
      else none

/-- `re.search(r'(\w+)\s+greater than\s+(\d+)', s)`, returning both groups. -/
def reSearchGreaterThan (s : String) : Option (String × ℕ) :=
  (scanFind matchGreaterAt s.data).map (fun p => (String.mk p.1, p.2))

/-! ### Element-wise comparisons (pandas `Series <op> scalar`, one cell at a time) -/

/-- Cell strictly greater than the scalar.  Number/number and string/string
compare normally; an ordering comparison across types is modelled as `false`. -/
def vGt : Value → Value → Bool
  | .num a, .num b => decide (b < a)
  | .str a, .str b => decide (b < a)
  | _, _ => false

/-- Cell strictly less than the scalar. -/
def vLt : Value → Value → Bool
  | .num a, .num b => decide (a < b)
  | .str a, .str b => decide (a < b)
  | _, _ => false

/-- Cell greater than or equal to the scalar. -/
def vGe (a b : Value) : Bool :=
  vGt a b || a == b

/-- Cell less than or equal to the scalar. -/
def vLe (a b : Value) : Bool :=
  vLt a b || a == b

/-- Cell strictly below a numeric threshold (`df[col] < threshold` on a
numeric column). -/
def numLt (v : Value) (t : ℚ) : Bool :=
  vLt v (Value.num t)

/-! ## SmartFilter (models/filtering.py) -/

/-- The error taxonomy of `SmartFilter.apply_filter` (each case is a
`ValueError` with a distinct message in the source). -/
inductive FilterError where
  | columnNotFound (column : String)
  | unsupportedOperator (op : String)
  | unsupportedLogic (logic : String)
deriving DecidableEq, Repr

namespace SmartFilter

/-- One loop iteration's column lookup and operator dispatch
(filtering.py lines 24-42): the condition's Boolean mask over all rows,
or the error the iteration raises. -/
def condMask (df : DataFrame) (column op : String) (v : Value) :
    Except FilterError (List Bool) :=
  match colIndexOf df.cols column with
  | none => .error (.columnNotFound column)
  | some i =>
    if op = ">" then .ok (df.rows.map (fun r => vGt (cellAt r i) v))
    else if op = "<" then .ok (df.rows.map (fun r => vLt (cellAt r i) v))
    else if op = ">=" then .ok (df.rows.map (fun r => vGe (cellAt r i) v))
    else if op = "<=" then .ok (df.rows.map (fun r => vLe (cellAt r i) v))
    else if op = "==" then .ok (df.rows.map (fun r => cellAt r i == v))
    else if op = "!=" then .ok (df.rows.map (fun r => cellAt r i != v))
    else .error (.unsupportedOperator op)

/-- The loop of filtering.py lines 24-52 from the second condition on:
`mask` is the running mask; each further condition is masked and combined
per `logic`, raising `UnsupportedLogic` for a logic that is neither
`"AND"` nor `"OR"`. -/
def combineRest (df : DataFrame) (logic : String) :
    List (String × String × Value) → List Bool → Except FilterError (List Bool)
  | [], mask => .ok mask
  | (c, op, v) :: rest, mask =>
    match condMask df c op v with
    | .error e => .error e
    | .ok cm =>
      if logic = "AND" then combineRest df logic rest (mask.zipWith and cm)
      else if logic = "OR" then combineRest df logic rest (mask.zipWith or cm)
      else .error (.unsupportedLogic logic)

/-- Keep the rows whose mask entry is true (`self.df[mask]`). -/
def maskSelect (rows : List (List Value)) (mask : List Bool) : List (List Value) :=
  (rows.zip mask).filterMap (fun p => if p.2 then some p.1 else none)

/-- `SmartFilter.apply_filter(conditions, logic)` (filtering.py lines 8-54).
An empty condition list returns the dataframe unchanged; otherwise the first
condition seeds the mask (no logic check at index 0) and the remaining
conditions are combined by `combineRest`. -/
def apply_filter (df : DataFrame) (conditions : List (String × String × Value))
    (logic : String) : Except FilterError DataFrame :=
  match conditions with
  | [] => .ok df
  | (c, op, v) :: rest =>
    match condMask df c op v with
    | .error e => .error e
    | .ok cm =>
      match combineRest df logic rest cm with
      | .error e => .error e
      | .ok mask => .ok ⟨df.cols, maskSelect df.rows mask⟩

/-- The operators of the `if/elif` chain of filtering.py lines 29-40. -/
def supportedOps : List String :=
  [">", "<", ">=", "<=", "==", "!="]

end SmartFilter

/-! ## TextCommandProcessor (models/text_commands.py) -/

/-- The summary dictionary built by `_process_summary_command`
(text_commands.py lines 105-123).  The per-column `describe()` statistics
are recorded only by presence (`has_stats`), matching the source's
`if not numeric_cols.empty` guard; no analysed claim inspects their values. -/
structure SummaryInfo where
  total_rows : ℕ
  columns : List String
  numeric_columns : List String
  data_types : List (String × Bool)
  has_stats : Bool
deriving DecidableEq, Repr

/-- The result dictionary returned by `process_command` and its helpers:
an `action` tag plus the optional `message` / `data` / `column` / summary
payload keys that the various branches populate. -/
structure CmdResult where
  action : String
  message : Option String
  data : Option DataFrame
  column : Option String
  summaryInfo : Option SummaryInfo
deriving DecidableEq, Repr

namespace TextCommandProcessor

/-- How a condition value is rendered inside a result message. -/
def valueStr : Value → String
  | .num q => toString q
  | .str s => s

/-- An `{"action": "error", "message": msg}` envelope. -/
def errResult (msg : String) : CmdResult :=
  ⟨"error", some msg, none, none, none⟩

/-- A `{"action": "filter", "data": df, "message": msg}` envelope. -/
def filterResult (d : DataFrame) (msg : String) : CmdResult :=
  ⟨"filter", some msg, some d, none, none⟩

/-- The fuzzy column fallback of `_apply_filter` (text_commands.py lines
127-133): the column itself when present, otherwise the first column whose
lowercased name contains the lowercased requested name, otherwise `none`. -/
def resolveColumn (df : DataFrame) (column : String) : Option String :=
  if df.colNames.contains column then some column
  else (df.colNames.filter
    (fun c => strContainsSub (pyLower c) (pyLower column))).head?

/-- One comparison branch of `_apply_filter` (text_commands.py lines
136-153): keep the rows of column number `i` related to `v` by `cmp` and
build the filter envelope. -/
def keepRows (df : DataFrame) (i : ℕ) (col op : String) (v : Value)
    (cmp : Value → Value → Bool) : CmdResult :=
  filterResult ⟨df.cols, df.rows.filter (fun r => cmp (cellAt r i) v)⟩
    ("Filtered " ++ toString (df.rows.filter (fun r => cmp (cellAt r i) v)).length
      ++ " rows where " ++ col ++ " " ++ op ++ " " ++ valueStr v)

/-- `TextCommandProcessor._apply_filter(df, column, operator, value)`
(text_commands.py lines 125-156): fuzzy column fallback, then one of the
operators `>`, `<`, `>=`, `<=`, `==` (note: no `!=` here, unlike
`SmartFilter`), returning a filter envelope or an error envelope. -/
def applyFilterTC (df : DataFrame) (column op : String) (v : Value) : CmdResult :=
  match resolveColumn df column with
  | none => errResult ("Column '" ++ column ++ "' not found")
  | some col =>
    if op = ">" then keepRows df ((colIndexOf df.cols col).getD 0) col op v vGt
    else if op = "<" then keepRows df ((colIndexOf df.cols col).getD 0) col op v vLt
    else if op = ">=" then keepRows df ((colIndexOf df.cols col).getD 0) col op v vGe
    else if op = "<=" then keepRows df ((colIndexOf df.cols col).getD 0) col op v vLe
    else if op = "==" then
      keepRows df ((colIndexOf df.cols col).getD 0) col op v (fun a b => a == b)
    else errResult ("Operator '" ++ op ++ "' not supported")

/-- The `try:` body of `_process_filter_command` (text_commands.py lines
48-71).  `.ok (some r)` is a branch returning `r`; `.ok none` falls through
to the final "Could not parse filter command"; `.error msg` is a raised
exception caught by the handler (an `IndexError` from `[-1]`/`[0]` on an
empty token list, or a `ValueError` from `float`). -/
def filterBody (command : String) (df : DataFrame) : Except String (Option CmdResult) :=
  if strContainsSub command ">" then
    let parts := pySplitGt command
    if 2 ≤ parts.length then
      match (pySplitWs (pyStrip (parts.getD 0 ""))).getLast? with
      | none => .error "list index out of range"
      | some column =>
        match (pySplitWs (pyStrip (parts.getD 1 ""))).head? with
        | none => .error "list index out of range"
        | some tok =>
          match parsePyFloat tok with
          | none => .error ("could not convert string to float: '" ++ tok ++ "'")
          | some value => .ok (some (applyFilterTC df column ">" (Value.num value)))
    else .ok none
  else if strContainsSub command "above" then
    match reSearchAboveNum command with
    | some n =>
      match df.numColNames.find?
          (fun col => strContainsSub (pyLower col) "mark" || strContainsSub (pyLower col) "score") with
      | some col => .ok (some (applyFilterTC df col ">" (Value.num (n : ℚ))))
      | none => .ok none
    | none => .ok none
  else if strContainsSub command "greater than" then
    match reSearchGreaterThan command with
    | some (column, n) => .ok (some (applyFilterTC df column ">" (Value.num (n : ℚ))))
    | none => .ok none
  else .ok none

/-- `_process_filter_command` (text_commands.py lines 46-76): run the body,
convert a raised exception into a `"Filter error: …"` envelope, and turn a
fall-through into the "Could not parse filter command" envelope. -/
def processFilterCommand (command : String) (df : DataFrame) : CmdResult :=
  match filterBody command df with
  | .ok (some r) => r
  | .ok none => errResult "Could not parse filter command"
  | .error e => errResult ("Filter error: " ++ e)

/-- `_process_chart_command` (text_commands.py lines 78-89): the first
column whose lowercased name occurs in the command. -/
def processChartCommand (command : String) (df : DataFrame) : CmdResult :=
  match df.colNames.find? (fun col => strContainsSub command (pyLower col)) with
  | some col => ⟨"chart", none, some df, some col, none⟩
  | none => errResult "Column not found for chart"

/-- Indices of the numeric columns whose lowercased name contains
"mark" or "score" (text_commands.py lines 162-166), in column order. -/
def markColIdxs (cols : List (String × Bool)) : List ℕ :=
  (List.range cols.length).filter (fun i =>
    let c := cols.getD i ("", false)
    c.2 && (strContainsSub (pyLower c.1) "mark" || strContainsSub (pyLower c.1) "score"))

/-- The non-empty per-column row selections `df[df[col] < threshold]`
collected by the loop of `_highlight_low_values` (text_commands.py lines
164-169). -/
def highlightPieces (df : DataFrame) (t : ℚ) : List (List (List Value)) :=
  (markColIdxs df.cols).filterMap (fun i =>
    let lr := df.rows.filter (fun r => numLt (cellAt r i) t)
    if lr.isEmpty then none else some lr)

/-- `pd.concat(pieces).drop_duplicates()` keeps the first occurrence of
each duplicated row; `seen` accumulates the rows already emitted. -/
def dedupFirstAux (seen : List (List Value)) :
    List (List Value) → List (List Value)
  | [] => []
  | r :: rest =>
    if r ∈ seen then dedupFirstAux seen rest
    else r :: dedupFirstAux (r :: seen) rest

/-- De-duplicate keeping first occurrences. -/
def dedupFirst (l : List (List Value)) : List (List Value) :=
  dedupFirstAux [] l

/-- The `"data"` table of `_highlight_low_values` (text_commands.py lines
158-183): the concatenated, de-duplicated matching rows, or the empty
`pd.DataFrame()` (no columns, no rows) when no column matched. -/
def highlightTable (df : DataFrame) (t : ℚ) : DataFrame :=
  match highlightPieces df t with
  | [] => ⟨[], []⟩
  | ps => ⟨df.cols, dedupFirst ps.flatten⟩

/-- `_highlight_low_values` (text_commands.py lines 158-186) as a result
envelope. -/
def highlightLowValues (df : DataFrame) (t : ℚ) : CmdResult :=
  match highlightPieces df t with
  | [] =>
    ⟨"highlight", some ("No values found below " ++ toString t), some ⟨[], []⟩, none, none⟩
  | ps =>
    let result := dedupFirst ps.flatten
    ⟨"highlight",
      some ("Highlighted " ++ toString result.length ++ " rows with values below " ++ toString t),
      some ⟨df.cols, result⟩, none, none⟩

/-- `_process_highlight_command` (text_commands.py lines 91-103). -/
def processHighlightCommand (command : String) (df : DataFrame) : CmdResult :=
  if strContainsSub command "low marks" || strContainsSub command "below" then
    match reSearchBelowNum command with
    | some n => highlightLowValues df (n : ℚ)
    | none => errResult "Could not parse highlight command"
  else errResult "Could not parse highlight command"

/-- `_process_summary_command` (text_commands.py lines 105-123). -/
def processSummaryCommand (df : DataFrame) : CmdResult :=
  ⟨"summary", none, none, none,
    some ⟨df.rows.length, df.colNames, df.numColNames, df.cols, !df.numColNames.isEmpty⟩⟩

/-- The keyword list of the filter dispatch test (text_commands.py line 29). -/
def filterKeywords : List String :=
  [">", "<", ">=", "<=", "==", "above", "below", "greater", "less"]

/-- The fixed help message of the unknown-command envelope
(text_commands.py line 44). -/
def unknownMsg : String :=
  "Command not recognized. Try: 'filter marks > 80' or 'create chart for marks'"

/-- The dispatch chain of `process_command` (text_commands.py lines 26-44),
applied to the already-normalized command string. -/
def processNormalized (command : String) (df : DataFrame) : CmdResult :=
  if filterKeywords.any (fun op => strContainsSub command op) then
    processFilterCommand command df
  else if strContainsSub command "chart" || strContainsSub command "plot"
      || strContainsSub command "graph" then
    processChartCommand command df
  else if strContainsSub command "highlight" || strContainsSub command "mark" then
    processHighlightCommand command df
  else if strContainsSub command "summary" || strContainsSub command "insights"
      || strContainsSub command "analyze" then
    processSummaryCommand df
  else ⟨"unknown", some unknownMsg, none, none, none⟩

/-- `TextCommandProcessor.process_command` (text_commands.py lines 15-44). -/
def process_command (commandText : String) (df : DataFrame) : CmdResult :=
  processNormalized (normalizeCmd commandText) df

/-- The built-in `command_examples` list (text_commands.py lines 6-13). -/
def command_examples : List String :=
  ["filter marks > 80",
   "show students with marks above 70",
   "create chart for marks column",
   "highlight low marks below 40",
   "filter age > 20",
   "show rows where score >= 85"]

/-- The first whitespace token after the first `>` of a normalized command
(the string whose `float()` conversion text_commands.py line 54 attempts),
when the command contains `>` at all. -/
def firstTokAfterGt (command : String) : Option String :=
  if strContainsSub command ">" then
    (pySplitWs (pyStrip ((pySplitGt command).getD 1 ""))).head?
  else none

end TextCommandProcessor

/-! ## VoiceCommandProcessor (models/voice_commands.py) -/

/-- Demo-mode `listen_and_recognize` (voice_commands.py lines 17-21):
when no audio stack is importable the method returns the fixed string
`"show students above 80"`.  The method is stateless, so the value of the
`n`-th invocation is this constant for every `n`; the argument records the
invocation number only to let properties speak about successive calls. -/
def listenDemo (_n : ℕ) : String :=
  "show students above 80"

/-! ## IQR outlier rules (models/insights.py and models/error_detection.py) -/

/-- Linear interpolation between the order statistics of a sorted list `s`
at fractional position `pos`: the value
`s[⌊pos⌋] + (pos - ⌊pos⌋) * (s[⌊pos⌋+1] - s[⌊pos⌋])` (the out-of-range
upper neighbour defaults to the lower one, which only happens when the
fractional part is zero). -/
def interpAt (s : List ℚ) (pos : ℚ) : ℚ :=
  s.getD (⌊pos⌋).toNat 0 +
    (pos - ((⌊pos⌋).toNat : ℚ)) *
      (s.getD ((⌊pos⌋).toNat + 1) (s.getD (⌊pos⌋).toNat 0) - s.getD (⌊pos⌋).toNat 0)

/-- Linear-interpolation quantile of a list, as computed by
`Series.quantile(q)` (pandas' default `interpolation='linear'`):
sort ascending and interpolate at position `q*(n-1)`.  An empty list
yields 0 (pandas yields NaN there; both IQR rules then flag no rows). -/
def pandasQuantile (l : List ℚ) (q : ℚ) : ℚ :=
  if (l.insertionSort (· ≤ ·)).length = 0 then 0
  else interpAt (l.insertionSort (· ≤ ·))
    (q * (((l.insertionSort (· ≤ ·)).length : ℚ) - 1))

/-- Number of rows flagged by the IQR rule with multiplier `mult` over a
numeric column `col`: rows whose value is below `Q1 - mult*IQR` or above
`Q3 + mult*IQR` (insights.py lines 43-52 with `mult = 1.5`;
error_detection.py lines 100-113 with `mult = 3`). -/
def iqrOutlierRowCount (mult : ℚ) (col : List ℚ) : ℕ :=
  (col.filter (fun x =>
    decide (x < pandasQuantile col (1 / 4)
      - mult * (pandasQuantile col (3 / 4) - pandasQuantile col (1 / 4))) ||
    decide (pandasQuantile col (3 / 4)
      + mult * (pandasQuantile col (3 / 4) - pandasQuantile col (1 / 4)) < x))).length

/-- The numeric data of column `i` of a dataframe (the cells a numeric
dtype column holds). -/
def numColData (df : DataFrame) (i : ℕ) : List ℚ :=
  df.rows.filterMap (fun r =>
    match cellAt r i with
    | .num q => some q
    | .str _ => none)

/-- Outlier row count of the insight report (1.5×IQR, insights.py 43-52)
for column `i` of `df`. -/
def insightOutlierCount (df : DataFrame) (i : ℕ) : ℕ :=
  iqrOutlierRowCount (3 / 2) (numColData df i)

/-- Extreme-outlier row count of the error report (3×IQR,
error_detection.py 96-116) for column `i` of `df`. -/
def errorExtremeOutlierCount (df : DataFrame) (i : ℕ) : ℕ :=
  iqrOutlierRowCount 3 (numColData df i)

/-! ## Proof-support definitions -/

/-- Pointwise implication between Boolean masks of equal length. -/
def maskImp (m1 m2 : List Bool) : Prop :=
  List.Forall₂ (fun a b => a = true → b = true) m1 m2

/-! ## Lemmas about the SmartFilter embedding -/

theorem colIndexOf_eq_none_of_not_mem {cols : List (String × Bool)} {c : String}
    (h : c ∉ cols.map Prod.fst) : colIndexOf cols c = none := by
  induction cols with
  | nil => rfl
  | cons p rest ih =>
    rw [List.map_cons] at h
    have h1 : ¬(p.1 = c) := fun hc => h (hc ▸ List.mem_cons_self _ _)
    have h2 : c ∉ rest.map Prod.fst := fun hc => h (List.mem_cons_of_mem _ hc)
    have h3 := ih h2
    simp only [colIndexOf, List.findIdx?_cons] at h3 ⊢
    simp [h1, h3]

theorem colIndexOf_isSome_of_mem {cols : List (String × Bool)} {c : String}
    (h : c ∈ cols.map Prod.fst) : ∃ i, colIndexOf cols c = some i := by
  induction cols with
  | nil => simp at h
  | cons p rest ih =>
    rw [List.map_cons] at h
    by_cases hc : p.1 = c
    · exact ⟨0, by simp [colIndexOf, List.findIdx?_cons, hc]⟩
    · have h2 : c ∈ rest.map Prod.fst := by
        rcases List.mem_cons.mp h with h' | h'
        · exact absurd h'.symm hc
        · exact h'
      obtain ⟨i, hi⟩ := ih h2
      refine ⟨i + 1, ?_⟩
      simp only [colIndexOf, List.findIdx?_cons] at hi ⊢
      simp [hc, hi]

theorem condMask_ok_of_valid {df : DataFrame} {c op : String} {v : Value}
    (hc : c ∈ df.colNames) (hop : op ∈ SmartFilter.supportedOps) :
    ∃ m, SmartFilter.condMask df c op v = .ok m := by
  obtain ⟨i, hi⟩ := colIndexOf_isSome_of_mem hc
  rcases h : SmartFilter.condMask df c op v with e | m
  · exfalso
    fin_cases hop <;> simp [SmartFilter.condMask, hi] at h
  · exact ⟨m, rfl⟩

theorem condMask_err_of_not_mem {df : DataFrame} {c op : String} {v : Value}
    (hc : c ∉ df.colNames) :
    SmartFilter.condMask df c op v = .error (.columnNotFound c) := by
  simp [SmartFilter.condMask, colIndexOf_eq_none_of_not_mem hc]

theorem mem_of_condMask_ok {df : DataFrame} {c op : String} {v : Value}
    {m : List Bool} (h : SmartFilter.condMask df c op v = .ok m) :
    c ∈ df.colNames := by
  by_contra hc
  rw [condMask_err_of_not_mem hc] at h
  exact absurd h (by simp)

theorem maskImp_refl (m : List Bool) : maskImp m m :=
  List.forall₂_same.mpr (fun _ _ => id)

theorem maskImp_zipWith {m1 m2 : List Bool} (h : maskImp m1 m2) :
    ∀ cm : List Bool, maskImp (m1.zipWith and cm) (m2.zipWith or cm) := by
  induction h with
  | nil => intro cm; simp [maskImp]
  | @cons a b t1 t2 hab _ ih =>
    intro cm
    cases cm with
    | nil => simp [maskImp]
    | cons cb cs =>
      refine List.Forall₂.cons ?_ (ih cs)
      cases cb <;> intro hand <;> simp_all

theorem combineRest_and_or {df : DataFrame}
    (conds : List (String × String × Value)) :
    ∀ m1 m2 : List Bool,
      (∀ x ∈ conds, x.1 ∈ df.colNames ∧ x.2.1 ∈ SmartFilter.supportedOps) →
      maskImp m1 m2 →
      ∃ mA mO, SmartFilter.combineRest df "AND" conds m1 = .ok mA ∧
        SmartFilter.combineRest df "OR" conds m2 = .ok mO ∧ maskImp mA mO := by
  induction conds with
  | nil => exact fun m1 m2 _ h12 => ⟨m1, m2, rfl, rfl, h12⟩
  | cons x rest ih =>
    intro m1 m2 hv h12
    obtain ⟨c, op, v⟩ := x
    obtain ⟨m, hm⟩ := @condMask_ok_of_valid df c op v
      (hv (c, op, v) (by simp)).1 (hv (c, op, v) (by simp)).2
    obtain ⟨mA, mO, hA, hO, hAO⟩ :=
      ih (m1.zipWith and m) (m2.zipWith or m)
        (fun y hy => hv y (by simp [hy])) (maskImp_zipWith h12 m)
    exact ⟨mA, mO, by simp [SmartFilter.combineRest, hm, hA],
      by simp [SmartFilter.combineRest, hm, hO], hAO⟩

theorem maskSelect_subset {rows : List (List Value)} :
    ∀ {m1 m2 : List Bool}, maskImp m1 m2 →
      ∀ r ∈ SmartFilter.maskSelect rows m1, r ∈ SmartFilter.maskSelect rows m2 := by
  induction rows with
  | nil => intro m1 m2 _ r hr; simp [SmartFilter.maskSelect] at hr
  | cons row rs ih =>
    intro m1 m2 h r hr
    cases h with
    | nil => simp [SmartFilter.maskSelect] at hr
    | @cons a b t1 t2 hab ht =>
      cases a with
      | true =>
        have hb : b = true := hab rfl
        subst hb
        simp only [SmartFilter.maskSelect, List.zip_cons_cons,
          List.filterMap_cons, if_pos rfl] at hr ⊢
        rcases List.mem_cons.mp hr with rfl | hr'
        · exact List.mem_cons_self _ _
        · exact List.mem_cons_of_mem _ (ih ht r hr')
      | false =>
        simp only [SmartFilter.maskSelect, List.zip_cons_cons,
          List.filterMap_cons] at hr ⊢
        rw [if_neg (by simp)] at hr
        have hr2 := ih ht r hr
        cases b with
        | true => exact List.mem_cons_of_mem _ hr2
        | false => exact hr2

theorem combineRest_error_of_missing {df : DataFrame} {logic : String}
    (conds : List (String × String × Value)) :
    ∀ m : List Bool, (∃ x ∈ conds, x.1 ∉ df.colNames) →
      ∃ e, SmartFilter.combineRest df logic conds m = .error e := by
  induction conds with
  | nil => intro m h; simp at h
  | cons x rest ih =>
    intro m h
    obtain ⟨c, op, v⟩ := x
    rcases hk : SmartFilter.condMask df c op v with e | cm
    · exact ⟨e, by simp [SmartFilter.combineRest, hk]⟩
    · have hc : c ∈ df.colNames := mem_of_condMask_ok hk
      have h' : ∃ y ∈ rest, y.1 ∉ df.colNames := by
        rcases h with ⟨y, hy, hny⟩
        rcases List.mem_cons.mp hy with rfl | hy'
        · exact absurd hc hny
        · exact ⟨y, hy', hny⟩
      by_cases hA : logic = "AND"
      · subst hA
        obtain ⟨e, he⟩ := ih (m.zipWith and cm) h'
        exact ⟨e, by simp [SmartFilter.combineRest, hk, he]⟩
      · by_cases hO : logic = "OR"
        · subst hO
          obtain ⟨e, he⟩ := ih (m.zipWith or cm) h'
          exact ⟨e, by simp [SmartFilter.combineRest, hk, hA, he]⟩
        · exact ⟨.unsupportedLogic logic,
            by simp [SmartFilter.combineRest, hk, hA, hO]⟩

theorem apply_filter_error_of_missing {df : DataFrame} {logic : String}
    {conds : List (String × String × Value)}
    (h : ∃ x ∈ conds, x.1 ∉ df.colNames) :
    ∃ e, SmartFilter.apply_filter df conds logic = .error e := by
  match conds, h with
  | (c, op, v) :: rest, h =>
    rcases hk : SmartFilter.condMask df c op v with e | cm
    · exact ⟨e, by simp [SmartFilter.apply_filter, hk]⟩
    · have hc : c ∈ df.colNames := mem_of_condMask_ok hk
      have h' : ∃ y ∈ rest, y.1 ∉ df.colNames := by
        rcases h with ⟨y, hy, hny⟩
        rcases List.mem_cons.mp hy with rfl | hy'
        · exact absurd hc hny
        · exact ⟨y, hy', hny⟩
      obtain ⟨e, he⟩ := @combineRest_error_of_missing df logic rest cm h'
      exact ⟨e, by simp [SmartFilter.apply_filter, hk, he]⟩

theorem combineRest_colNotFound {df : DataFrame} {logic : String}
    {c : String × String × Value} (hmiss : c.1 ∉ df.colNames)
    (post : List (String × String × Value)) :
    ∀ (pre : List (String × String × Value)) (m : List Bool),
      (∀ p ∈ pre, p.1 ∈ df.colNames ∧ p.2.1 ∈ SmartFilter.supportedOps) →
      (pre ≠ [] → logic = "AND" ∨ logic = "OR") →
      SmartFilter.combineRest df logic (pre ++ c :: post) m
        = .error (.columnNotFound c.1) := by
  intro pre
  induction pre with
  | nil =>
    intro m _ _
    obtain ⟨cn, opn, vn⟩ := c
    simp [SmartFilter.combineRest, condMask_err_of_not_mem hmiss]
  | cons p pre' ih =>
    intro m hv hlog
    obtain ⟨cp, opp, vp⟩ := p
    obtain ⟨mm, hmm⟩ := @condMask_ok_of_valid df cp opp vp
      (hv (cp, opp, vp) (by simp)).1 (hv (cp, opp, vp) (by simp)).2
    rcases hlog (by simp) with hL | hL <;> subst hL
    · simpa [SmartFilter.combineRest, hmm] using
        ih (m.zipWith and mm) (fun q hq => hv q (by simp [hq])) (fun _ => Or.inl rfl)
    · simpa [SmartFilter.combineRest, hmm] using
        ih (m.zipWith or mm) (fun q hq => hv q (by simp [hq])) (fun _ => Or.inr rfl)

/-! ## Claims C1, C4, C5, C6 (SmartFilter.apply_filter) -/

/-- Claim C1, counterexample: with exactly one condition (valid column,
supported operator) and the unsupported logic `"XOR"`, `apply_filter` does
not fail — it returns the filtered table — because the source checks the
logic flag only from the second condition on (filtering.py lines 45-52). -/
theorem claim_C1_counterexample :
    ("XOR" ≠ "AND" ∧ "XOR" ≠ "OR") ∧
    SmartFilter.apply_filter ⟨[("a", true)], [[Value.num 1]]⟩
      [("a", ">", Value.num 0)] "XOR"
      = .ok ⟨[("a", true)], [[Value.num 1]]⟩ :=
  ⟨⟨by decide, by decide⟩, rfl⟩

/-- Claim C1, amended: for every table and every condition list of length
at least two whose columns exist and whose operators are supported,
`apply_filter` fails with `UnsupportedLogic` whenever the logic is neither
`"AND"` nor `"OR"`; with exactly one condition no logic check happens. -/
theorem claim_C1 (df : DataFrame) (c0 c1 : String × String × Value)
    (rest : List (String × String × Value)) (logic : String)
    (hvalid : ∀ x ∈ c0 :: c1 :: rest, x.1 ∈ df.colNames ∧
      x.2.1 ∈ SmartFilter.supportedOps)
    (hA : logic ≠ "AND") (hO : logic ≠ "OR") :
    SmartFilter.apply_filter df (c0 :: c1 :: rest) logic
      = .error (.unsupportedLogic logic) := by
  obtain ⟨ca, opa, va⟩ := c0
  obtain ⟨cb, opb, vb⟩ := c1
  obtain ⟨m0, hm0⟩ := @condMask_ok_of_valid df ca opa va
    (hvalid (ca, opa, va) (by simp)).1 (hvalid (ca, opa, va) (by simp)).2
  obtain ⟨mb, hmb⟩ := @condMask_ok_of_valid df cb opb vb
    (hvalid (cb, opb, vb) (by simp)).1 (hvalid (cb, opb, vb) (by simp)).2
  simp [SmartFilter.apply_filter, SmartFilter.combineRest, hm0, hmb, hA, hO]

/-- Claim C1, witness for the amended theorem at a concrete input. -/
theorem claim_C1_witness :
    SmartFilter.apply_filter ⟨[("a", true)], [[Value.num 1]]⟩
      [("a", ">", Value.num 0), ("a", "<", Value.num 5)] "XOR"
      = .error (.unsupportedLogic "XOR") :=
  claim_C1 ⟨[("a", true)], [[Value.num 1]]⟩ ("a", ">", Value.num 0)
    ("a", "<", Value.num 5) [] "XOR" (by decide) (by decide) (by decide)

/-- Claim C4: for every table and non-empty condition list with existing
columns and supported operators, both `apply_filter` runs succeed and every
row of the `"AND"` result is a row of the `"OR"` result. -/
theorem claim_C4 (df : DataFrame) (conds : List (String × String × Value))
    (hne : conds ≠ [])
    (hvalid : ∀ x ∈ conds, x.1 ∈ df.colNames ∧
      x.2.1 ∈ SmartFilter.supportedOps) :
    ∃ tA tO, SmartFilter.apply_filter df conds "AND" = .ok tA ∧
      SmartFilter.apply_filter df conds "OR" = .ok tO ∧
      ∀ r ∈ tA.rows, r ∈ tO.rows := by
  match conds, hne with
  | (c, op, v) :: rest, _ =>
    obtain ⟨m0, hm0⟩ := @condMask_ok_of_valid df c op v
      (hvalid (c, op, v) (by simp)).1 (hvalid (c, op, v) (by simp)).2
    obtain ⟨mA, mO, hA, hO, hAO⟩ :=
      combineRest_and_or rest m0 m0
        (fun y hy => hvalid y (by simp [hy])) (maskImp_refl m0)
    refine ⟨⟨df.cols, SmartFilter.maskSelect df.rows mA⟩,
      ⟨df.cols, SmartFilter.maskSelect df.rows mO⟩, ?_, ?_, ?_⟩
    · simp [SmartFilter.apply_filter, hm0, hA]
    · simp [SmartFilter.apply_filter, hm0, hO]
    · exact maskSelect_subset hAO

/-- Claim C4, witness at a concrete table and condition pair. -/
theorem claim_C4_witness :
    ∃ tA tO, SmartFilter.apply_filter ⟨[("a", true)], [[Value.num 1], [Value.num 3]]⟩
        [("a", ">", Value.num 0), ("a", "<", Value.num 2)] "AND" = .ok tA ∧
      SmartFilter.apply_filter ⟨[("a", true)], [[Value.num 1], [Value.num 3]]⟩
        [("a", ">", Value.num 0), ("a", "<", Value.num 2)] "OR" = .ok tO ∧
      ∀ r ∈ tA.rows, r ∈ tO.rows :=
  claim_C4 ⟨[("a", true)], [[Value.num 1], [Value.num 3]]⟩
    [("a", ">", Value.num 0), ("a", "<", Value.num 2)] (by decide) (by decide)

/-- Claim C5, counterexample: the condition list contains a condition on
the absent column `"b"`, yet `apply_filter` fails with
`UnsupportedOperator` (raised by the earlier condition's bogus operator
`"%"`), not with `ColumnNotFound`. -/
theorem claim_C5_counterexample :
    "b" ∉ DataFrame.colNames ⟨[("a", true)], [[Value.num 1]]⟩ ∧
    SmartFilter.apply_filter ⟨[("a", true)], [[Value.num 1]]⟩
      [("a", "%", Value.num 0), ("b", ">", Value.num 0)] "AND"
      = .error (.unsupportedOperator "%") :=
  ⟨by decide, rfl⟩

/-- Claim C5, amended: when some condition's column is absent,
`apply_filter` always fails (it never returns a table); the error is
`ColumnNotFound` provided every condition preceding the absent-column
condition has an existing column and a supported operator and — when at
least two conditions precede it — the logic is `"AND"` or `"OR"`.
Otherwise the failure may be `UnsupportedOperator` or `UnsupportedLogic`. -/
theorem claim_C5 (df : DataFrame) (pre post : List (String × String × Value))
    (c : String × String × Value) (logic : String)
    (hmiss : c.1 ∉ df.colNames) :
    (∃ e, SmartFilter.apply_filter df (pre ++ c :: post) logic = .error e) ∧
    ((∀ p ∈ pre, p.1 ∈ df.colNames ∧ p.2.1 ∈ SmartFilter.supportedOps) →
      (2 ≤ pre.length → logic = "AND" ∨ logic = "OR") →
      SmartFilter.apply_filter df (pre ++ c :: post) logic
        = .error (.columnNotFound c.1)) := by
  constructor
  · exact apply_filter_error_of_missing ⟨c, by simp, hmiss⟩
  · intro hv hlog
    cases pre with
    | nil =>
      obtain ⟨cn, opn, vn⟩ := c
      simp [SmartFilter.apply_filter, condMask_err_of_not_mem hmiss]
    | cons p pre' =>
      obtain ⟨cp, opp, vp⟩ := p
      obtain ⟨m0, hm0⟩ := @condMask_ok_of_valid df cp opp vp
        (hv (cp, opp, vp) (by simp)).1 (hv (cp, opp, vp) (by simp)).2
      have hlog' : pre' ≠ [] → logic = "AND" ∨ logic = "OR" := by
        intro hne
        refine hlog ?_
        cases pre' with
        | nil => exact absurd rfl hne
        | cons q qs => simp
      simp only [List.cons_append, SmartFilter.apply_filter, hm0]
      rw [@combineRest_colNotFound df logic c hmiss post pre' m0
        (fun q hq => hv q (by simp [hq])) hlog']

/-- Claim C5, witness for the amended theorem at a concrete input. -/
theorem claim_C5_witness :
    (∃ e, SmartFilter.apply_filter ⟨[("a", true)], [[Value.num 1]]⟩
      ([("a", ">", Value.num 0)] ++ ("b", ">", Value.num 0) :: []) "AND"
        = .error e) ∧
    ((∀ p ∈ [("a", ">", Value.num 0)],
        p.1 ∈ DataFrame.colNames ⟨[("a", true)], [[Value.num 1]]⟩ ∧
        p.2.1 ∈ SmartFilter.supportedOps) →
      (2 ≤ [("a", ">", Value.num 0)].length → "AND" = "AND" ∨ "AND" = "OR") →
      SmartFilter.apply_filter ⟨[("a", true)], [[Value.num 1]]⟩
        ([("a", ">", Value.num 0)] ++ ("b", ">", Value.num 0) :: []) "AND"
        = .error (.columnNotFound "b")) :=
  claim_C5 ⟨[("a", true)], [[Value.num 1]]⟩ [("a", ">", Value.num 0)] []
    ("b", ">", Value.num 0) "AND" (by decide)

/-- Claim C6: `apply_filter` with an empty condition list returns the
table unchanged and raises no error, for every logic value
(filtering.py lines 19-20). -/
theorem claim_C6 (df : DataFrame) (logic : String) :
    SmartFilter.apply_filter df [] logic = .ok df :=
  rfl

/-! ## Lemmas about the IQR outlier rules -/

theorem getD_mono_of_sorted {s : List ℚ} (hs : s.Sorted (· ≤ ·)) {i j : ℕ}
    (hij : i ≤ j) (hj : j < s.length) : s.getD i 0 ≤ s.getD j 0 := by
  have hi : i < s.length := lt_of_le_of_lt hij hj
  rw [List.getD_eq_getElem _ _ hi, List.getD_eq_getElem _ _ hj]
  have h := hs.rel_get_of_le
    (show (⟨i, hi⟩ : Fin s.length) ≤ ⟨j, hj⟩ from hij)
  simpa using h

theorem floor_toNat_cast_le {p : ℚ} (h0 : 0 ≤ p) : ((⌊p⌋.toNat : ℚ)) ≤ p := by
  have hnn : 0 ≤ ⌊p⌋ := Int.floor_nonneg.mpr h0
  have h1 : ((⌊p⌋.toNat : ℤ) : ℚ) = ((⌊p⌋ : ℤ) : ℚ) := by
    rw [Int.toNat_of_nonneg hnn]
  calc ((⌊p⌋.toNat : ℚ)) = ((⌊p⌋.toNat : ℤ) : ℚ) := by push_cast; ring
    _ = ((⌊p⌋ : ℤ) : ℚ) := h1
    _ ≤ p := Int.floor_le p

theorem lt_floor_toNat_add_one {p : ℚ} (h0 : 0 ≤ p) :
    p < (⌊p⌋.toNat : ℚ) + 1 := by
  have hnn : 0 ≤ ⌊p⌋ := Int.floor_nonneg.mpr h0
  have h1 : ((⌊p⌋.toNat : ℤ) : ℚ) = ((⌊p⌋ : ℤ) : ℚ) := by
    rw [Int.toNat_of_nonneg hnn]
  have h2 := Int.lt_floor_add_one p
  calc p < ((⌊p⌋ : ℤ) : ℚ) + 1 := h2
    _ = ((⌊p⌋.toNat : ℤ) : ℚ) + 1 := by rw [h1]
    _ = (⌊p⌋.toNat : ℚ) + 1 := by push_cast; ring

theorem floor_toNat_lt_length {p : ℚ} {n : ℕ} (h0 : 0 ≤ p)
    (hub : p ≤ (n : ℚ) - 1) : ⌊p⌋.toNat < n := by
  have h1 : (⌊p⌋ : ℚ) ≤ (n : ℚ) - 1 := le_trans (Int.floor_le p) hub
  have h2 : ((n : ℚ) - 1) = (((n : ℤ) - 1 : ℤ) : ℚ) := by push_cast; ring
  rw [h2] at h1
  have h3 : ⌊p⌋ ≤ (n : ℤ) - 1 := by exact_mod_cast h1
  have h4 : (1 : ℚ) ≤ (n : ℚ) := by
    have := le_trans h0 hub
    linarith
  have h5 : 1 ≤ n := by exact_mod_cast h4
  omega

theorem getD_succ_self_le {s : List ℚ} (hs : s.Sorted (· ≤ ·)) (k : ℕ) :
    s.getD k 0 ≤ s.getD (k + 1) (s.getD k 0) := by
  by_cases hk : k + 1 < s.length
  · have h := getD_mono_of_sorted hs (Nat.le_succ k) hk
    rw [List.getD_eq_getElem _ _ hk] at h ⊢
    exact h
  · rw [List.getD_eq_default _ _ (Nat.le_of_not_lt hk)]

theorem le_interpAt {s : List ℚ} (hs : s.Sorted (· ≤ ·)) {p : ℚ}
    (h0 : 0 ≤ p) : s.getD (⌊p⌋).toNat 0 ≤ interpAt s p := by
  unfold interpAt
  have hfrac : 0 ≤ p - ((⌊p⌋.toNat : ℚ)) := sub_nonneg.mpr (floor_toNat_cast_le h0)
  have hx := getD_succ_self_le hs (⌊p⌋).toNat
  nlinarith [mul_nonneg hfrac (sub_nonneg.mpr hx)]

theorem interpAt_le {s : List ℚ} (hs : s.Sorted (· ≤ ·)) {p : ℚ}
    (h0 : 0 ≤ p) (hin : (⌊p⌋).toNat + 1 < s.length) :
    interpAt s p ≤ s.getD ((⌊p⌋).toNat + 1) 0 := by
  unfold interpAt
  rw [List.getD_eq_getElem _ _ hin]
  have hfrac1 : p - ((⌊p⌋.toNat : ℚ)) < 1 := by
    have := lt_floor_toNat_add_one h0
    linarith
  have hfrac0 : 0 ≤ p - ((⌊p⌋.toNat : ℚ)) := sub_nonneg.mpr (floor_toNat_cast_le h0)
  have hx := getD_succ_self_le hs (⌊p⌋).toNat
  rw [List.getD_eq_getElem _ _ hin] at hx ⊢
  nlinarith [mul_nonneg (sub_nonneg.mpr (le_of_lt hfrac1))
    (sub_nonneg.mpr hx)]

theorem interpAt_mono {s : List ℚ} (hs : s.Sorted (· ≤ ·)) {p1 p2 : ℚ}
    (h0 : 0 ≤ p1) (h12 : p1 ≤ p2) (h2 : p2 ≤ (s.length : ℚ) - 1) :
    interpAt s p1 ≤ interpAt s p2 := by
  have h02 : 0 ≤ p2 := le_trans h0 h12
  have hk12 : (⌊p1⌋).toNat ≤ (⌊p2⌋).toNat :=
    Int.toNat_le_toNat (Int.floor_le_floor h12)
  have hk2 : (⌊p2⌋).toNat < s.length := floor_toNat_lt_length h02 h2
  rcases Nat.lt_or_ge (⌊p1⌋).toNat (⌊p2⌋).toNat with hlt | hge
  · have hin : (⌊p1⌋).toNat + 1 < s.length := lt_of_le_of_lt hlt hk2
    calc interpAt s p1 ≤ s.getD ((⌊p1⌋).toNat + 1) 0 := interpAt_le hs h0 hin
      _ ≤ s.getD (⌊p2⌋).toNat 0 := getD_mono_of_sorted hs hlt hk2
      _ ≤ interpAt s p2 := le_interpAt hs h02
  · have hkeq : (⌊p1⌋).toNat = (⌊p2⌋).toNat := le_antisymm hk12 hge
    unfold interpAt
    rw [hkeq]
    have hx := getD_succ_self_le hs (⌊p2⌋).toNat
    nlinarith [mul_nonneg (sub_nonneg.mpr h12) (sub_nonneg.mpr hx)]

theorem pandasQuantile_q1_le_q3 (l : List ℚ) :
    pandasQuantile l (1 / 4) ≤ pandasQuantile l (3 / 4) := by
  unfold pandasQuantile
  by_cases h : (l.insertionSort (· ≤ ·)).length = 0
  · simp [h]
  · rw [if_neg h, if_neg h]
    have hs : (l.insertionSort (· ≤ ·)).Sorted (· ≤ ·) :=
      List.sorted_insertionSort _ _
    have hn : (1 : ℚ) ≤ ((l.insertionSort (· ≤ ·)).length : ℚ) := by
      have h1 : 1 ≤ (l.insertionSort (· ≤ ·)).length := Nat.one_le_iff_ne_zero.mpr h
      exact_mod_cast h1
    refine interpAt_mono hs ?_ ?_ ?_
    · have : (0 : ℚ) ≤ ((l.insertionSort (· ≤ ·)).length : ℚ) - 1 := by linarith
      positivity
    · have : (0 : ℚ) ≤ ((l.insertionSort (· ≤ ·)).length : ℚ) - 1 := by linarith
      nlinarith
    · nlinarith

/-! ## Claim C2 (IQR outlier counts) -/

/-- Claim C2, counterexample: on the numeric column `[1, 2, 3, 4, 8]`
(Q1 = 2, Q3 = 4, IQR = 2) the insight report's 1.5×IQR rule flags the row
with value 8 while the error report's 3×IQR rule flags nothing, so the
claimed inequality `insight ≤ error` fails. -/
theorem claim_C2_counterexample :
    insightOutlierCount
      ⟨[("x", true)],
        [[Value.num 1], [Value.num 2], [Value.num 3], [Value.num 4], [Value.num 8]]⟩ 0 = 1 ∧
    errorExtremeOutlierCount
      ⟨[("x", true)],
        [[Value.num 1], [Value.num 2], [Value.num 3], [Value.num 4], [Value.num 8]]⟩ 0 = 0 ∧
    ¬ insightOutlierCount
      ⟨[("x", true)],
        [[Value.num 1], [Value.num 2], [Value.num 3], [Value.num 4], [Value.num 8]]⟩ 0 ≤
      errorExtremeOutlierCount
        ⟨[("x", true)],
          [[Value.num 1], [Value.num 2], [Value.num 3], [Value.num 4], [Value.num 8]]⟩ 0 := by
  refine ⟨?_, ?_, ?_⟩
  · with_unfolding_all rfl
  · with_unfolding_all rfl
  · intro h
    have h1 : insightOutlierCount
        ⟨[("x", true)],
          [[Value.num 1], [Value.num 2], [Value.num 3], [Value.num 4], [Value.num 8]]⟩ 0 = 1 := by
      with_unfolding_all rfl
    have h2 : errorExtremeOutlierCount
        ⟨[("x", true)],
          [[Value.num 1], [Value.num 2], [Value.num 3], [Value.num 4], [Value.num 8]]⟩ 0 = 0 := by
      with_unfolding_all rfl
    rw [h1, h2] at h
    exact absurd h (by omega)

/-- Claim C2, amended: for every table and every numeric column, the
number of rows flagged by the error report's 3×IQR extreme-outlier rule is
less than or equal to the number flagged by the insight report's 1.5×IQR
rule — the inequality of the claim runs the other way around. -/
theorem claim_C2 (df : DataFrame) (i : ℕ) :
    errorExtremeOutlierCount df i ≤ insightOutlierCount df i := by
  unfold errorExtremeOutlierCount insightOutlierCount iqrOutlierRowCount
  have hq := pandasQuantile_q1_le_q3 (numColData df i)
  apply List.Sublist.length_le
  apply List.monotone_filter_right
  intro x hx
  simp only [Bool.or_eq_true, decide_eq_true_eq] at hx ⊢
  rcases hx with h | h
  · left; linarith
  · right; linarith

/-! ## Lemmas about the highlight operation -/

namespace TextCommandProcessor

theorem mem_dedupFirstAux {r : List Value} :
    ∀ (l seen : List (List Value)),
      (r ∈ dedupFirstAux seen l ↔ r ∈ l ∧ r ∉ seen) := by
  intro l
  induction l with
  | nil => intro seen; simp [dedupFirstAux]
  | cons x rest ih =>
    intro seen
    by_cases hx : x ∈ seen
    · rw [dedupFirstAux, if_pos hx, ih seen]
      constructor
      · rintro ⟨h1, h2⟩; exact ⟨List.mem_cons_of_mem _ h1, h2⟩
      · rintro ⟨h1, h2⟩
        rcases List.mem_cons.mp h1 with rfl | h1'
        · exact absurd hx h2
        · exact ⟨h1', h2⟩
    · rw [dedupFirstAux, if_neg hx]
      constructor
      · intro h
        rcases List.mem_cons.mp h with rfl | h'
        · exact ⟨List.mem_cons_self _ _, hx⟩
        · obtain ⟨h1, h2⟩ := (ih (x :: seen)).mp h'
          exact ⟨List.mem_cons_of_mem _ h1,
            fun hm => h2 (List.mem_cons_of_mem _ hm)⟩
      · rintro ⟨h1, h2⟩
        rcases List.mem_cons.mp h1 with rfl | h1'
        · exact List.mem_cons_self _ _
        · by_cases he : r = x
          · exact he ▸ List.mem_cons_self _ _
          · exact List.mem_cons_of_mem _ ((ih (x :: seen)).mpr
              ⟨h1', fun hm => (List.mem_cons.mp hm).elim he h2⟩)

theorem mem_dedupFirst {r : List Value} {l : List (List Value)} :
    r ∈ dedupFirst l ↔ r ∈ l := by
  rw [dedupFirst, mem_dedupFirstAux]
  simp

theorem mem_pieces_flatten {df : DataFrame} {t : ℚ} {r : List Value} :
    r ∈ (highlightPieces df t).flatten ↔
      ∃ i ∈ markColIdxs df.cols, r ∈ df.rows ∧ numLt (cellAt r i) t = true := by
  simp only [highlightPieces, List.mem_flatten, List.mem_filterMap]
  constructor
  · rintro ⟨piece, ⟨i, hi, hpi⟩, hr⟩
    by_cases hE : (df.rows.filter (fun row => numLt (cellAt row i) t)).isEmpty
    · rw [if_pos hE] at hpi
      exact absurd hpi (by simp)
    · rw [if_neg hE] at hpi
      obtain rfl : _ = piece := Option.some.inj hpi
      obtain ⟨h1, h2⟩ := List.mem_filter.mp hr
      exact ⟨i, hi, h1, h2⟩
  · rintro ⟨i, hi, hrow, hlt⟩
    have hr : r ∈ df.rows.filter (fun row => numLt (cellAt row i) t) :=
      List.mem_filter.mpr ⟨hrow, hlt⟩
    refine ⟨df.rows.filter (fun row => numLt (cellAt row i) t), ⟨i, hi, ?_⟩, hr⟩
    rw [if_neg ?_]
    intro hE
    rw [List.isEmpty_iff] at hE
    rw [hE] at hr
    exact absurd hr (by simp)

theorem mem_highlightTable {df : DataFrame} {t : ℚ} {r : List Value} :
    r ∈ (highlightTable df t).rows ↔
      ∃ i ∈ markColIdxs df.cols, r ∈ df.rows ∧ numLt (cellAt r i) t = true := by
  unfold highlightTable
  rcases hp : highlightPieces df t with _ | ⟨p, ps⟩
  · simp only
    constructor
    · intro h; exact absurd h (by simp)
    · rintro ⟨i, hi, hrow, hlt⟩
      have h := mem_pieces_flatten.mpr ⟨i, hi, hrow, hlt⟩
      rw [hp] at h
      exact absurd h (by simp)
  · simp only
    rw [mem_dedupFirst, ← hp, mem_pieces_flatten]

theorem highlightTable_cols_of_mem {df : DataFrame} {t : ℚ} {r : List Value}
    (h : r ∈ (highlightTable df t).rows) :
    (highlightTable df t).cols = df.cols := by
  unfold highlightTable at h ⊢
  rcases hp : highlightPieces df t with _ | ⟨p, ps⟩
  · rw [hp] at h
    exact absurd h (List.not_mem_nil r)
  · rfl

end TextCommandProcessor

/-! ## Claim C7 (highlight idempotence) -/

/-- Claim C7: applying the highlight operation a second time, to the table
produced by the first application, yields the same row set as applying it
once (membership equivalence, hence set equality after de-duplication). -/
theorem claim_C7 (df : DataFrame) (t : ℚ) (r : List Value) :
    r ∈ (TextCommandProcessor.highlightTable
      (TextCommandProcessor.highlightTable df t) t).rows ↔
      r ∈ (TextCommandProcessor.highlightTable df t).rows := by
  constructor
  · intro h
    obtain ⟨i, hi, hrow, hlt⟩ := TextCommandProcessor.mem_highlightTable.mp h
    exact hrow
  · intro hr
    obtain ⟨j, hj, hrowdf, hltj⟩ := TextCommandProcessor.mem_highlightTable.mp hr
    refine TextCommandProcessor.mem_highlightTable.mpr ⟨j, ?_, hr, hltj⟩
    rw [TextCommandProcessor.highlightTable_cols_of_mem hr]
    exact hj

/-! ## Lemmas about the command dispatch -/

theorem dropWhile_append_singleton {c : Char} (hc : c.isWhitespace = false) :
    ∀ m : List Char, ∃ m',
      (m ++ [c]).dropWhile Char.isWhitespace = m' ++ [c] := by
  intro m
  induction m with
  | nil => exact ⟨[], by simp [List.dropWhile_cons, hc]⟩
  | cons x xs ih =>
    by_cases hx : x.isWhitespace
    · obtain ⟨m', hm'⟩ := ih
      exact ⟨m', by simp [List.dropWhile_cons, hx, hm']⟩
    · exact ⟨x :: xs, by simp [List.dropWhile_cons, hx]⟩

theorem trimChars_cons_of_not_ws {c : Char} (hc : c.isWhitespace = false)
    (l : List Char) : ∃ l', trimChars (c :: l) = c :: l' := by
  unfold trimChars
  rw [List.dropWhile_cons_of_neg (by simp [hc])]
  rw [List.reverse_cons]
  obtain ⟨m', hm'⟩ := dropWhile_append_singleton hc l.reverse
  refine ⟨m'.reverse, ?_⟩
  rw [hm', List.reverse_append]
  rfl

theorem parsePyFloat_none_of_head_eq {tok : String}
    (h : tok.data.head? = some '=') : parsePyFloat tok = none := by
  obtain ⟨rest, hrest⟩ : ∃ rest, tok.data = '=' :: rest := by
    cases hd : tok.data with
    | nil => rw [hd] at h; exact absurd h (by simp)
    | cons x cs =>
      rw [hd] at h
      have hx : x = '=' := by simpa using h
      exact ⟨cs, by rw [hx]⟩
  unfold parsePyFloat
  rw [hrest]
  obtain ⟨l', hl'⟩ := @trimChars_cons_of_not_ws '=' (by decide) rest
  rw [hl']
  unfold parseUnsignedFloat
  simp

namespace TextCommandProcessor

theorem applyFilterTC_action (df : DataFrame) (c op : String) (v : Value) :
    (applyFilterTC df c op v).action = "filter" ∨
      (applyFilterTC df c op v).action = "error" := by
  unfold applyFilterTC
  rcases h : resolveColumn df c with _ | col
  · exact Or.inr rfl
  · split_ifs <;> first | exact Or.inl rfl | exact Or.inr rfl

theorem filterBody_ok_some {command : String} {df : DataFrame} {r : CmdResult}
    (h : filterBody command df = .ok (some r)) :
    ∃ c v, r = applyFilterTC df c ">" (Value.num v) := by
  unfold filterBody at h
  by_cases h1 : strContainsSub command ">" = true
  · rw [if_pos h1] at h
    by_cases h2 : 2 ≤ (pySplitGt command).length
    · rw [if_pos h2] at h
      split at h
      · exact absurd h (by simp)
      · split at h
        · exact absurd h (by simp)
        · split at h
          · exact absurd h (by simp)
          · exact ⟨_, _, (Option.some.inj (Except.ok.inj h)).symm⟩
    · rw [if_neg h2] at h
      exact absurd h (by simp)
  · rw [if_neg h1] at h
    by_cases h3 : strContainsSub command "above" = true
    · rw [if_pos h3] at h
      split at h
      · split at h
        · exact ⟨_, _, (Option.some.inj (Except.ok.inj h)).symm⟩
        · exact absurd h (by simp)
      · exact absurd h (by simp)
    · rw [if_neg h3] at h
      by_cases h4 : strContainsSub command "greater than" = true
      · rw [if_pos h4] at h
        split at h
        · exact ⟨_, _, (Option.some.inj (Except.ok.inj h)).symm⟩
        · exact absurd h (by simp)
      · rw [if_neg h4] at h
        exact absurd h (by simp)

theorem processFilterCommand_action (command : String) (df : DataFrame) :
    (processFilterCommand command df).action = "filter" ∨
      (processFilterCommand command df).action = "error" := by
  unfold processFilterCommand
  rcases hb : filterBody command df with e | o
  · exact Or.inr rfl
  · cases o with
    | none => exact Or.inr rfl
    | some r =>
      obtain ⟨c, v, rfl⟩ := filterBody_ok_some hb
      exact applyFilterTC_action df c ">" (Value.num v)

theorem processChartCommand_action (command : String) (df : DataFrame) :
    (processChartCommand command df).action = "chart" ∨
      (processChartCommand command df).action = "error" := by
  unfold processChartCommand
  rcases h : df.colNames.find? (fun col => strContainsSub command (pyLower col))
    with _ | col
  · exact Or.inr rfl
  · exact Or.inl rfl

theorem highlightLowValues_action (df : DataFrame) (t : ℚ) :
    (highlightLowValues df t).action = "highlight" := by
  unfold highlightLowValues
  rcases hp : highlightPieces df t with _ | ⟨p, ps⟩ <;> rfl

theorem processHighlightCommand_action (command : String) (df : DataFrame) :
    (processHighlightCommand command df).action = "highlight" ∨
      (processHighlightCommand command df).action = "error" := by
  unfold processHighlightCommand
  split_ifs with hc
  · rcases h : reSearchBelowNum command with _ | n
    · exact Or.inr rfl
    · exact Or.inl (highlightLowValues_action df _)
  · exact Or.inr rfl

theorem filterBody_gt_err {command : String} {df : DataFrame} {tok : String}
    (hgt : strContainsSub command ">" = true)
    (hhd : (pySplitWs (pyStrip ((pySplitGt command).getD 1 ""))).head?
      = some tok)
    (hfl : parsePyFloat tok = none) :
    (processFilterCommand command df).action = "error" := by
  unfold processFilterCommand filterBody
  rw [if_pos hgt]
  by_cases hlen : 2 ≤ (pySplitGt command).length
  · rw [if_pos hlen]
    rcases hlast : (pySplitWs (pyStrip ((pySplitGt command).getD 0 ""))).getLast?
      with _ | column
    · rfl
    · simp only [hhd, hfl]
      rfl
  · rw [if_neg hlen]
    rfl

end TextCommandProcessor

/-! ## Claims C3, C8, C9, C10 (command parsing) -/

/-- Claim C3: the code's own example command "highlight low marks below 40"
(member of `command_examples`) does not produce a highlight intent: because
the command contains "below", the dispatch chain routes it to the filter
branch, whose three patterns all fail, giving the error envelope
"Could not parse filter command".  This contradicts both the recognized
vocabulary and the highlight sub-parsing rule, so it is a defect of the
dispatch order in text_commands.py line 29. -/
theorem claim_C3_bug :
    "highlight low marks below 40" ∈ TextCommandProcessor.command_examples ∧
    TextCommandProcessor.process_command "highlight low marks below 40"
      ⟨[("marks", true)], [[Value.num 35], [Value.num 80]]⟩
      = TextCommandProcessor.errResult "Could not parse filter command" := by
  constructor
  · decide
  · with_unfolding_all rfl

/-- Claim C8: for every input string and table, the result envelope's
action tag is one of filter / chart / highlight / summary / error /
unknown (the embedded `process_command` is a total function: the source
converts every handler failure into an envelope), and the unrecognized
input "hello world" yields the unknown envelope with the fixed help
message. -/
theorem claim_C8 (cmd : String) (df : DataFrame) :
    (TextCommandProcessor.process_command cmd df).action ∈
      (["filter", "chart", "highlight", "summary", "error", "unknown"] :
        List String) ∧
    TextCommandProcessor.process_command "hello world" df
      = ⟨"unknown", some TextCommandProcessor.unknownMsg, none, none, none⟩ := by
  constructor
  · unfold TextCommandProcessor.process_command
      TextCommandProcessor.processNormalized
    split_ifs with h1 h2 h3 h4
    · rcases TextCommandProcessor.processFilterCommand_action
        (normalizeCmd cmd) df with h | h <;> rw [h] <;> decide
    · rcases TextCommandProcessor.processChartCommand_action
        (normalizeCmd cmd) df with h | h <;> rw [h] <;> decide
    · rcases TextCommandProcessor.processHighlightCommand_action
        (normalizeCmd cmd) df with h | h <;> rw [h] <;> decide
    · rw [show (TextCommandProcessor.processSummaryCommand df).action
        = "summary" from rfl]
      decide
    · decide
  · have hb1 : (TextCommandProcessor.filterKeywords.any
        (fun op => strContainsSub (normalizeCmd "hello world") op)) = false := by
      decide
    have hb2 : (strContainsSub (normalizeCmd "hello world") "chart"
        || strContainsSub (normalizeCmd "hello world") "plot"
        || strContainsSub (normalizeCmd "hello world") "graph") = false := by
      decide
    have hb3 : (strContainsSub (normalizeCmd "hello world") "highlight"
        || strContainsSub (normalizeCmd "hello world") "mark") = false := by
      decide
    have hb4 : (strContainsSub (normalizeCmd "hello world") "summary"
        || strContainsSub (normalizeCmd "hello world") "insights"
        || strContainsSub (normalizeCmd "hello world") "analyze") = false := by
      decide
    simp [TextCommandProcessor.process_command,
      TextCommandProcessor.processNormalized, hb1, hb2, hb3, hb4]

/-- Claim C9, counterexample: three successive demo-mode invocations of
the voice stand-in's listen operation all return the same fixed phrase —
there is no rotating index and no list of 3 canned phrases in
voice_commands.py (lines 17-21 return one constant string). -/
theorem claim_C9_counterexample :
    listenDemo 0 = "show students above 80" ∧
    listenDemo 1 = listenDemo 0 ∧ listenDemo 2 = listenDemo 0 :=
  ⟨rfl, rfl, rfl⟩

/-- Claim C9, amended: when no real speech engine is present, every
invocation of the voice-command stand-in's listen operation returns the
same fixed demo phrase "show students above 80"; there is no rotation. -/
theorem claim_C9 (n : ℕ) : listenDemo n = "show students above 80" :=
  rfl

/-- Claim C10, counterexample: a command containing the token `>=` whose
FIRST `>` belongs to an ordinary comparison parses fine — the claimed
universal "every command containing '>=' yields an error envelope" fails
on "marks > 5 and score >= 3". -/
theorem claim_C10_counterexample :
    strContainsSub (normalizeCmd "marks > 5 and score >= 3") ">=" = true ∧
    (TextCommandProcessor.process_command "marks > 5 and score >= 3"
      ⟨[("marks", true)], [[Value.num 10]]⟩).action = "filter" := by
  constructor
  · decide
  · with_unfolding_all rfl

/-- Claim C10, amended: the text parser produces a filter envelope only
through `_apply_filter` with operator `>` (never `>=`); and whenever the
first whitespace token after the FIRST `>` of the normalized command
begins with `=` — as in the built-in example "show rows where score >= 85"
— the `float()` conversion fails and `process_command` returns an error
envelope. -/
theorem claim_C10 (cmd : String) (df : DataFrame) :
    ((TextCommandProcessor.process_command cmd df).action = "filter" →
      ∃ c v, TextCommandProcessor.process_command cmd df
        = TextCommandProcessor.applyFilterTC df c ">" (Value.num v)) ∧
    (∀ tok : String,
      TextCommandProcessor.firstTokAfterGt (normalizeCmd cmd) = some tok →
      tok.data.head? = some '=' →
      (TextCommandProcessor.process_command cmd df).action = "error") := by
  constructor
  · intro hf
    unfold TextCommandProcessor.process_command
      TextCommandProcessor.processNormalized at hf ⊢
    split_ifs at hf ⊢ with h1 h2 h3 h4
    · unfold TextCommandProcessor.processFilterCommand at hf ⊢
      rcases hb : TextCommandProcessor.filterBody (normalizeCmd cmd) df
        with e | o
      · rw [hb] at hf
        simp [TextCommandProcessor.errResult] at hf
      · cases o with
        | none =>
          rw [hb] at hf
          simp [TextCommandProcessor.errResult] at hf
        | some r =>
          obtain ⟨c, v, rfl⟩ := TextCommandProcessor.filterBody_ok_some hb
          exact ⟨c, v, rfl⟩
    · rcases TextCommandProcessor.processChartCommand_action
        (normalizeCmd cmd) df with h | h <;> rw [h] at hf <;>
        exact absurd hf (by decide)
    · rcases TextCommandProcessor.processHighlightCommand_action
        (normalizeCmd cmd) df with h | h <;> rw [h] at hf <;>
        exact absurd hf (by decide)
    · rw [show (TextCommandProcessor.processSummaryCommand df).action
        = "summary" from rfl] at hf
      exact absurd hf (by decide)
    · exact absurd hf (by decide)
  · intro tok htok hhead
    cases hgt : strContainsSub (normalizeCmd cmd) ">" with
    | false =>
      unfold TextCommandProcessor.firstTokAfterGt at htok
      rw [hgt] at htok
      exact absurd htok (by simp)
    | true =>
      have hhd : (pySplitWs (pyStrip
          ((pySplitGt (normalizeCmd cmd)).getD 1 ""))).head? = some tok := by
        unfold TextCommandProcessor.firstTokAfterGt at htok
        rw [hgt] at htok
        simpa using htok
      have hany : (TextCommandProcessor.filterKeywords.any
          (fun op => strContainsSub (normalizeCmd cmd) op)) = true :=
        List.any_eq_true.mpr ⟨">", by decide, hgt⟩
      unfold TextCommandProcessor.process_command
        TextCommandProcessor.processNormalized
      rw [if_pos hany]
      exact TextCommandProcessor.filterBody_gt_err hgt hhd
        (parsePyFloat_none_of_head_eq hhead)

end IntelliSheet
